import Mathlib

/-!
Shallow embedding of the e-commerce analytics dashboard
(`src/dashboard/app.py`; `src/dashboard/dash.py` is a near-duplicate with the
same `load_data`, `calculate_rfm` and filter logic).

Modelling conventions:
* A dataframe is a `List Row`; a CSV file on disk is a `RawFile`, and the file
  system is a partial map `String → Option RawFile` (`os.path.exists` is
  `fs path ≠ none`).
* Monetary and score columns are `ℚ` (exact values; the Python floats are the
  same expressions evaluated in float arithmetic).
* Timestamps are `Option Int`, in seconds; `pd.NaT` is `none`.
  `pd.to_datetime(col, errors="coerce")` is `parseDate` over `RawCell`s.
* `Timedelta.days` floors the quotient by 86400 seconds, hence `Int.fdiv`;
  `.dt.date` maps a timestamp to its calendar day number, also `Int.fdiv` by
  86400.
* `groupby(key)` aggregates, for each distinct key value, the sub-list of rows
  with that key.  pandas orders groups by sorted key; the embedding uses
  `List.dedup` of the key column, which has the same set of keys without
  duplicates.  No property below depends on the order of the groups.
* pandas skips nulls in `max`/`mean`/`count`; the embedding does the same via
  `filterMap` over the `Option` columns.  `mean` of an empty column is NaN,
  modelled as `none`.
-/

namespace Dashboard

/-- One cell of a date-typed CSV column, before `pd.to_datetime`: a value that
parses as a datetime (seconds since epoch), a string that does not parse, or an
empty cell. -/
inductive RawCell where
  | date (t : Int)
  | text (s : String)
  | na
deriving DecidableEq, Repr

/-- One CSV record, before preprocessing: the columns of the dataset that the
dashboard reads, with the five date columns still raw. -/
structure RawRow where
  order_id : String
  customer_unique_id : String
  product_category_name : String
  payment_type : String
  payment_installments : Int
  customer_state : String
  customer_city : String
  price : ℚ
  freight_value : ℚ
  review_score : ℚ
  order_purchase_raw : RawCell
  order_approved_raw : RawCell
  order_delivered_carrier_raw : RawCell
  order_delivered_customer_raw : RawCell
  order_estimated_delivery_raw : RawCell
deriving DecidableEq, Repr

/-- A CSV file: which of the two required columns are present, and the rows.
(The other columns are modelled as always present; only `price` and
`freight_value` are ever tested for presence by `load_data`.) -/
structure RawFile where
  hasPriceCol : Bool
  hasFreightCol : Bool
  rows : List RawRow
deriving DecidableEq, Repr

/-- A fully preprocessed dataframe row, as returned by `load_data`: date
columns parsed, `total_value` and `delivery_time` derived. -/
structure Row where
  order_id : String
  customer_unique_id : String
  product_category_name : String
  payment_type : String
  payment_installments : Int
  customer_state : String
  customer_city : String
  price : ℚ
  freight_value : ℚ
  review_score : ℚ
  order_purchase_timestamp : Option Int
  order_approved_at : Option Int
  order_delivered_carrier_date : Option Int
  order_delivered_customer_date : Option Int
  order_estimated_delivery_date : Option Int
  total_value : ℚ
  delivery_time : Option Int
deriving DecidableEq, Repr

/-- The two ways `load_data` fails: `FileNotFoundError` when the path does not
exist, `KeyError` when `price` or `freight_value` is absent. -/
inductive LoadError where
  | fileNotFound
  | missingRequiredColumn
deriving DecidableEq, Repr

/-- `pd.to_datetime(x, errors="coerce")` on one cell: unparseable values and
empty cells become missing (`NaT`), never an error. -/
def parseDate : RawCell → Option Int
  | .date t => some t
  | .text _ => none
  | .na => none

/-- Seconds in a day, the divisor for `Timedelta.days` and `.dt.date`. -/
def secondsPerDay : Int := 86400

/-- `Timedelta.days`: the floor of the duration (seconds) divided by one day. -/
def timedeltaDays (d : Int) : Int := Int.fdiv d secondsPerDay

/-- `.dt.date`: the calendar day number of a timestamp. -/
def dateOfTs (t : Int) : Int := Int.fdiv t secondsPerDay

/-- Preprocess one row, mirroring `load_data` lines 43-55: parse the five date
columns, set `total_value = price + freight_value`, and set `delivery_time =
(order_delivered_customer_date - order_purchase_timestamp).dt.days`, which is
missing when either timestamp is missing. -/
def deriveRow (r : RawRow) : Row :=
  { order_id := r.order_id
    customer_unique_id := r.customer_unique_id
    product_category_name := r.product_category_name
    payment_type := r.payment_type
    payment_installments := r.payment_installments
    customer_state := r.customer_state
    customer_city := r.customer_city
    price := r.price
    freight_value := r.freight_value
    review_score := r.review_score
    order_purchase_timestamp := parseDate r.order_purchase_raw
    order_approved_at := parseDate r.order_approved_raw
    order_delivered_carrier_date := parseDate r.order_delivered_carrier_raw
    order_delivered_customer_date := parseDate r.order_delivered_customer_raw
    order_estimated_delivery_date := parseDate r.order_estimated_delivery_raw
    total_value := r.price + r.freight_value
    delivery_time :=
      match parseDate r.order_delivered_customer_raw,
            parseDate r.order_purchase_raw with
      | some d, some p => some (timedeltaDays (d - p))
      | _, _ => none }

/-- `load_data` (app.py lines 23-57): raise `FileNotFoundError` if the path
does not exist; parse the date columns with `errors="coerce"` (never fatal);
raise `KeyError` unless both `price` and `freight_value` are present; derive
`total_value` and `delivery_time`. -/
def load_data (fs : String → Option RawFile) (file_path : String) :
    Except LoadError (List Row) :=
  match fs file_path with
  | none => .error .fileNotFound
  | some f =>
      if f.hasPriceCol && f.hasFreightCol then
        .ok (f.rows.map deriveRow)
      else
        .error .missingRequiredColumn

/-- `Series.max` over a column with nulls skipped: `none` iff no value. -/
def seriesMax (l : List Int) : Option Int :=
  l.foldl (fun acc t =>
    match acc with
    | none => some t
    | some m => some (max m t)) none

/-- `Series.nunique`: number of distinct values. -/
def nunique (l : List String) : Nat := l.dedup.length

/-- `Series.mean` with nulls already removed: missing on an empty column. -/
def meanQ (l : List ℚ) : Option ℚ :=
  if l.isEmpty then none else some (l.sum / (l.length : ℚ))

/-- One row of the table `calculate_rfm` returns: the group key and the three
aggregates.  `recency` is missing when the group has no purchase timestamp
(all `NaT`). -/
structure RFMRecord where
  customer_unique_id : String
  recency : Option Int
  frequency : Nat
  monetary : ℚ
deriving DecidableEq, Repr

/-- The rows of the group of customer `c`. -/
def customerGroup (df : List Row) (c : String) : List Row :=
  df.filter (fun r => r.customer_unique_id == c)

/-- `calculate_rfm` (app.py lines 59-71): group by `customer_unique_id` and
aggregate recency `(max_date - x.max()).days` (`max_date` being the dataset's
latest purchase timestamp, nulls skipped), frequency `count` of `order_id`
(row count, since `order_id` is never null), and monetary `sum` of
`total_value`. -/
def calculate_rfm (df : List Row) : List RFMRecord :=
  ((df.map (fun r => r.customer_unique_id)).dedup).map (fun c =>
    { customer_unique_id := c
      recency :=
        match seriesMax (df.filterMap (fun r => r.order_purchase_timestamp)),
              seriesMax ((customerGroup df c).filterMap
                (fun r => r.order_purchase_timestamp)) with
        | some m, some x => some (timedeltaDays (m - x))
        | _, _ => none
      frequency := (customerGroup df c).length
      monetary := ((customerGroup df c).map (fun r => r.total_value)).sum })

/-- The four scalar aggregates of `create_overview_metrics`: distinct order
count, revenue sum, mean order value, mean delivery time (the means are
missing on an empty table, where pandas shows NaN). -/
structure OverviewMetrics where
  total_orders : Nat
  total_revenue : ℚ
  avg_order_value : Option ℚ
  avg_delivery_time : Option ℚ
deriving DecidableEq, Repr

/-- `create_overview_metrics` (app.py lines 73-84), the displayed aggregates. -/
def create_overview_metrics (df : List Row) : OverviewMetrics :=
  { total_orders := nunique (df.map (fun r => r.order_id))
    total_revenue := (df.map (fun r => r.total_value)).sum
    avg_order_value := meanQ (df.map (fun r => r.total_value))
    avg_delivery_time :=
      meanQ ((df.filterMap (fun r => r.delivery_time)).map (fun n => (n : ℚ))) }

/-- `create_time_series` (app.py lines 86-91): per calendar date of
`order_purchase_timestamp` (rows with a missing timestamp have a null key and
are dropped by `groupby`), distinct `order_id` count and `total_value` sum. -/
def create_time_series (df : List Row) : List (Int × Nat × ℚ) :=
  let dated := df.filterMap (fun r =>
    r.order_purchase_timestamp.map (fun t => (dateOfTs t, r)))
  ((dated.map (fun p => p.1)).dedup).map (fun d =>
    let g := (dated.filter (fun p => p.1 == d)).map (fun p => p.2)
    (d, nunique (g.map (fun r => r.order_id)),
      (g.map (fun r => r.total_value)).sum))

/-- `create_customer_demographics`, left panel (app.py line 123): distinct
customers per state. -/
def demographics_by_state (df : List Row) : List (String × Nat) :=
  ((df.map (fun r => r.customer_state)).dedup).map (fun s =>
    (s, nunique ((df.filter (fun r => r.customer_state == s)).map
      (fun r => r.customer_unique_id))))

/-- Insert into a list kept in descending count order (helper for
`nlargest`). -/
def insertDesc (x : String × Nat) : List (String × Nat) → List (String × Nat)
  | [] => [x]
  | y :: ys => if y.2 < x.2 then x :: y :: ys else y :: insertDesc x ys

/-- Sort key-count pairs by descending count (helper for `nlargest`). -/
def sortDescByCount : List (String × Nat) → List (String × Nat)
  | [] => []
  | x :: xs => insertDesc x (sortDescByCount xs)

/-- `create_customer_demographics`, right panel (app.py line 134): distinct
customers per city, `nlargest(10)`. -/
def demographics_by_city (df : List Row) : List (String × Nat) :=
  (sortDescByCount (((df.map (fun r => r.customer_city)).dedup).map (fun s =>
    (s, nunique ((df.filter (fun r => r.customer_city == s)).map
      (fun r => r.customer_unique_id)))))).take 10

/-- `create_product_insights` aggregation (app.py lines 148-152): per product
category, `total_value` sum, mean `delivery_time`, mean `review_score`. -/
def create_product_insights (df : List Row) :
    List (String × ℚ × Option ℚ × Option ℚ) :=
  ((df.map (fun r => r.product_category_name)).dedup).map (fun c =>
    let g := df.filter (fun r => r.product_category_name == c)
    (c, (g.map (fun r => r.total_value)).sum,
      meanQ ((g.filterMap (fun r => r.delivery_time)).map (fun n => (n : ℚ))),
      meanQ (g.map (fun r => r.review_score))))

/-- `create_payment_analysis`, left panel (app.py lines 205-208): per payment
type, `total_value` sum and mean `review_score`. -/
def payment_stats (df : List Row) : List (String × ℚ × Option ℚ) :=
  ((df.map (fun r => r.payment_type)).dedup).map (fun p =>
    let g := df.filter (fun r => r.payment_type == p)
    (p, (g.map (fun r => r.total_value)).sum,
      meanQ (g.map (fun r => r.review_score))))

/-- `create_payment_analysis`, right panel (app.py lines 220-223): per
installment count, mean `total_value` and mean `review_score`. -/
def installment_stats (df : List Row) : List (Int × Option ℚ × Option ℚ) :=
  ((df.map (fun r => r.payment_installments)).dedup).map (fun n =>
    let g := df.filter (fun r => r.payment_installments == n)
    (n, meanQ (g.map (fun r => r.total_value)),
      meanQ (g.map (fun r => r.review_score))))

/-- The date-range component of the sidebar mask (app.py lines 315-316):
`df.order_purchase_timestamp.dt.date` between the two bounds inclusive.  A
missing timestamp gives a null date, and a null never satisfies a pandas
comparison, so the row fails the mask. -/
def datePasses (d0 d1 : Int) (r : Row) : Bool :=
  match r.order_purchase_timestamp with
  | some t => decide (d0 ≤ dateOfTs t) && decide (dateOfTs t ≤ d1)
  | none => false

/-- The full sidebar mask of `main` (app.py lines 314-321): the date-range
conjunct always, the category and payment equality conjuncts only when the
selector is not the sentinel value. -/
def rowMask (d0 d1 : Int) (selected_category selected_payment : String)
    (r : Row) : Bool :=
  datePasses d0 d1 r
    && (selected_category == "All" || r.product_category_name == selected_category)
    && (selected_payment == "All" || r.payment_type == selected_payment)

/-- `filtered_df = df[mask]` (app.py line 323): the rows satisfying the mask,
in source order. -/
def filterPipeline (df : List Row) (d0 d1 : Int)
    (selected_category selected_payment : String) : List Row :=
  df.filter (rowMask d0 d1 selected_category selected_payment)

/-- The category conjunct of the mask in isolation (app.py line 319): the rows
whose `product_category_name` equals the selected category. -/
def filterByCategory (df : List Row) (category : String) : List Row :=
  df.filter (fun r => r.product_category_name == category)

/-- The complement of `filterByCategory`: the rows the category predicate
rejects. -/
def filterOutCategory (df : List Row) (category : String) : List Row :=
  df.filter (fun r => !(r.product_category_name == category))

/-- The number of distinct orders among a customer's rows.  Modelled from the
spec's words ("frequency = count of orders"): the dataset is one row per
purchase line, an order is identified by `order_id` (as in the Total Orders
overview metric, which uses `nunique`), so the count of a customer's orders
is the distinct `order_id` count of the customer's group. -/
def spec_order_count (df : List Row) (c : String) : Nat :=
  nunique ((customerGroup df c).map (fun r => r.order_id))

/-- The dashboard's default data path. -/
def defaultPath : String := "data/cleaned_data.csv"

/-- The sentinel value that disables the category or payment filter. -/
def allSentinel : String := "All"

/-- A representative raw CSV record used by concrete witnesses below. -/
def baseRaw : RawRow :=
  { order_id := "o1"
    customer_unique_id := "c1"
    product_category_name := "beleza_saude"
    payment_type := "credit_card"
    payment_installments := 1
    customer_state := "SP"
    customer_city := "sao paulo"
    price := 10
    freight_value := 2
    review_score := 5
    order_purchase_raw := .date 0
    order_approved_raw := .date 3600
    order_delivered_carrier_raw := .date 86400
    order_delivered_customer_raw := .date 259200
    order_estimated_delivery_raw := .date 604800 }

/-- A one-row CSV file with both required columns present. -/
def baseFile : RawFile := { hasPriceCol := true, hasFreightCol := true, rows := [baseRaw] }

/-- A file system holding `baseFile` at the dashboard's default path. -/
def baseFS : String → Option RawFile :=
  fun p => if p = defaultPath then some baseFile else none

/-- The dataframe `load_data` produces from `baseFile`. -/
def baseDF : List Row := [deriveRow baseRaw]

/-- A file system with no file at any path. -/
def emptyFS : String → Option RawFile := fun _ => none

/-- A file whose table lacks the `price` column. -/
def noPriceFile : RawFile := { hasPriceCol := false, hasFreightCol := true, rows := [] }

/-- A file system holding `noPriceFile` at every path. -/
def noPriceFS : String → Option RawFile := fun _ => some noPriceFile

/-- A date cell content that does not parse as a datetime. -/
def unparseableText : String := "not a date"

/-- A raw record whose purchase-date cell is unparseable text. -/
def badDateRaw : RawRow := { baseRaw with order_purchase_raw := .text unparseableText }

/-- A file holding `badDateRaw`, with both required columns present. -/
def badDateFile : RawFile := { hasPriceCol := true, hasFreightCol := true, rows := [badDateRaw] }

/-- A file system holding `badDateFile` at every path. -/
def badDateFS : String → Option RawFile := fun _ => some badDateFile

/-- A loaded row whose purchase timestamp is missing (empty date cell). -/
def naPurchaseRow : Row := deriveRow { baseRaw with order_purchase_raw := .na }

/-- Helper: a successful `load_data` returns the derived rows of the file at
the path, and the file has both required columns. -/
theorem load_data_ok {fs : String → Option RawFile} {path : String}
    {df : List Row} (h : load_data fs path = .ok df) :
    ∃ f, fs path = some f ∧ f.hasPriceCol = true ∧ f.hasFreightCol = true ∧
      df = f.rows.map deriveRow := by
  unfold load_data at h
  split at h
  · exact absurd h (by simp)
  next f hfs =>
    split at h
    next hc =>
      obtain ⟨hp, hf⟩ := (Bool.and_eq_true _ _).mp hc
      exact ⟨f, hfs, hp, hf, (Except.ok.inj h).symm⟩
    · exact absurd h (by simp)

/-- C1: every row of a table returned by `load_data` has
`total_value = price + freight_value` exactly. -/
theorem c1_total_value_eq_price_plus_freight
    (fs : String → Option RawFile) (path : String) (df : List Row)
    (h : load_data fs path = .ok df) :
    ∀ r ∈ df, r.total_value = r.price + r.freight_value := by
  obtain ⟨f, _, _, _, rfl⟩ := load_data_ok h
  intro r hr
  obtain ⟨raw, _, rfl⟩ := List.mem_map.mp hr
  rfl

/-- Witness for C1 at a concrete file system and path. -/
theorem c1_witness :
    load_data baseFS defaultPath = .ok baseDF ∧
    ∀ r ∈ baseDF, r.total_value = r.price + r.freight_value :=
  ⟨rfl, c1_total_value_eq_price_plus_freight baseFS defaultPath baseDF rfl⟩

/-- C3: `load_data` on a nonexistent path fails with the file-not-found
error, and on a file lacking the `price` column fails with the
missing-required-column error. -/
theorem c3_load_data_errors (fs : String → Option RawFile) (path : String)
    (f : RawFile) :
    (fs path = none → load_data fs path = .error .fileNotFound) ∧
    (fs path = some f → f.hasPriceCol = false →
      load_data fs path = .error .missingRequiredColumn) := by
  constructor
  · intro h
    simp only [load_data, h]
  · intro h hp
    simp only [load_data, h]
    simp [hp]

/-- Witness for C3: a concrete empty file system and a concrete file without
the `price` column. -/
theorem c3_witness :
    load_data emptyFS defaultPath = .error .fileNotFound ∧
    load_data noPriceFS defaultPath = .error .missingRequiredColumn :=
  ⟨(c3_load_data_errors emptyFS defaultPath noPriceFile).1 rfl,
   (c3_load_data_errors noPriceFS defaultPath noPriceFile).2 rfl rfl⟩

/-- C8: date columns are parsed permissively.  Whatever the date cells hold,
`load_data` succeeds on any existing file with the two required columns, and
a cell that does not parse as a date becomes a missing value in the returned
table. -/
theorem c8_unparseable_dates_become_missing
    (fs : String → Option RawFile) (path : String) (f : RawFile)
    (hfs : fs path = some f) (hp : f.hasPriceCol = true)
    (hf : f.hasFreightCol = true) :
    load_data fs path = .ok (f.rows.map deriveRow) ∧
    ∀ raw ∈ f.rows,
      ((deriveRow raw).order_purchase_timestamp = parseDate raw.order_purchase_raw ∧
       (deriveRow raw).order_approved_at = parseDate raw.order_approved_raw ∧
       (deriveRow raw).order_delivered_carrier_date = parseDate raw.order_delivered_carrier_raw ∧
       (deriveRow raw).order_delivered_customer_date = parseDate raw.order_delivered_customer_raw ∧
       (deriveRow raw).order_estimated_delivery_date = parseDate raw.order_estimated_delivery_raw) ∧
      ∀ s : String,
        (raw.order_purchase_raw = .text s → (deriveRow raw).order_purchase_timestamp = none) ∧
        (raw.order_approved_raw = .text s → (deriveRow raw).order_approved_at = none) ∧
        (raw.order_delivered_carrier_raw = .text s →
          (deriveRow raw).order_delivered_carrier_date = none) ∧
        (raw.order_delivered_customer_raw = .text s →
          (deriveRow raw).order_delivered_customer_date = none) ∧
        (raw.order_estimated_delivery_raw = .text s →
          (deriveRow raw).order_estimated_delivery_date = none) := by
  constructor
  · simp only [load_data, hfs]
    simp [hp, hf]
  · intro raw _
    refine ⟨⟨rfl, rfl, rfl, rfl, rfl⟩, fun s => ?_⟩
    refine ⟨fun h => ?_, fun h => ?_, fun h => ?_, fun h => ?_, fun h => ?_⟩ <;>
      simp [deriveRow, h, parseDate]

/-- Witness for C8: a concrete file whose purchase-date cell is unparseable
text; loading succeeds and the cell is missing in the output. -/
theorem c8_witness :
    load_data badDateFS defaultPath = .ok (badDateFile.rows.map deriveRow) ∧
    ∀ raw ∈ badDateFile.rows,
      ((deriveRow raw).order_purchase_timestamp = parseDate raw.order_purchase_raw ∧
       (deriveRow raw).order_approved_at = parseDate raw.order_approved_raw ∧
       (deriveRow raw).order_delivered_carrier_date = parseDate raw.order_delivered_carrier_raw ∧
       (deriveRow raw).order_delivered_customer_date = parseDate raw.order_delivered_customer_raw ∧
       (deriveRow raw).order_estimated_delivery_date = parseDate raw.order_estimated_delivery_raw) ∧
      ∀ s : String,
        (raw.order_purchase_raw = .text s → (deriveRow raw).order_purchase_timestamp = none) ∧
        (raw.order_approved_raw = .text s → (deriveRow raw).order_approved_at = none) ∧
        (raw.order_delivered_carrier_raw = .text s →
          (deriveRow raw).order_delivered_carrier_date = none) ∧
        (raw.order_delivered_customer_raw = .text s →
          (deriveRow raw).order_delivered_customer_date = none) ∧
        (raw.order_estimated_delivery_raw = .text s →
          (deriveRow raw).order_estimated_delivery_date = none) :=
  c8_unparseable_dates_become_missing badDateFS defaultPath badDateFile rfl rfl rfl

/-- C9: in every table returned by `load_data`, `delivery_time` is the
customer-delivered timestamp minus the purchase timestamp in whole (floored)
days, and is missing whenever either timestamp is missing. -/
theorem c9_delivery_time_whole_days
    (fs : String → Option RawFile) (path : String) (df : List Row)
    (h : load_data fs path = .ok df) :
    ∀ r ∈ df,
      (∀ d p : Int, r.order_delivered_customer_date = some d →
        r.order_purchase_timestamp = some p →
        r.delivery_time = some (timedeltaDays (d - p))) ∧
      ((r.order_delivered_customer_date = none ∨ r.order_purchase_timestamp = none) →
        r.delivery_time = none) := by
  obtain ⟨f, _, _, _, rfl⟩ := load_data_ok h
  intro r hr
  obtain ⟨raw, _, rfl⟩ := List.mem_map.mp hr
  constructor
  · intro d p hd hp
    simp only [deriveRow] at hd hp ⊢
    rw [hd, hp]
  · intro hcase
    simp only [deriveRow] at hcase ⊢
    rcases hcase with h1 | h1
    · rw [h1]
    · rw [h1]
      cases parseDate raw.order_delivered_customer_raw <;> rfl

/-- Witness for C9 at the concrete base file system: both branches of the
conclusion evaluated on the loaded row. -/
theorem c9_witness :
    load_data baseFS defaultPath = .ok baseDF ∧
    ∀ r ∈ baseDF,
      (∀ d p : Int, r.order_delivered_customer_date = some d →
        r.order_purchase_timestamp = some p →
        r.delivery_time = some (timedeltaDays (d - p))) ∧
      ((r.order_delivered_customer_date = none ∨ r.order_purchase_timestamp = none) →
        r.delivery_time = none) :=
  ⟨rfl, c9_delivery_time_whole_days baseFS defaultPath baseDF rfl⟩

/-- C10: a row whose `order_purchase_timestamp` is missing is excluded by the
filter pipeline for every date range and every category and payment
selection, the sentinel included. -/
theorem c10_missing_timestamp_never_passes
    (df : List Row) (d0 d1 : Int) (selected_category selected_payment : String)
    (r : Row) (hr : r.order_purchase_timestamp = none) :
    r ∉ filterPipeline df d0 d1 selected_category selected_payment := by
  intro hmem
  have hmask := (List.mem_filter.mp hmem).2
  simp [rowMask, datePasses, hr] at hmask

/-- Witness for C10: a concrete row with a missing purchase timestamp is not
returned even with the widest date range and both selectors at "All". -/
theorem c10_witness :
    naPurchaseRow ∉
      filterPipeline [naPurchaseRow] (-100000) 100000 allSentinel allSentinel :=
  c10_missing_timestamp_never_passes [naPurchaseRow] (-100000) 100000
    allSentinel allSentinel naPurchaseRow rfl

/-- Helper: the date-range conjunct holds iff the purchase timestamp is
present and its calendar date lies in the inclusive range. -/
theorem datePasses_iff (d0 d1 : Int) (r : Row) :
    datePasses d0 d1 r = true ↔
      ∃ t, r.order_purchase_timestamp = some t ∧ d0 ≤ dateOfTs t ∧ dateOfTs t ≤ d1 := by
  cases hts : r.order_purchase_timestamp with
  | none => simp [datePasses, hts]
  | some t => simp [datePasses, hts]

/-- Helper: the sidebar mask holds iff the date conjunct holds and each
non-sentinel selector's equality conjunct holds. -/
theorem rowMask_iff (d0 d1 : Int) (selected_category selected_payment : String)
    (r : Row) :
    rowMask d0 d1 selected_category selected_payment r = true ↔
      (datePasses d0 d1 r = true ∧
       (selected_category ≠ allSentinel → r.product_category_name = selected_category) ∧
       (selected_payment ≠ allSentinel → r.payment_type = selected_payment)) := by
  rw [rowMask]
  simp only [Bool.and_eq_true, Bool.or_eq_true, beq_iff_eq, allSentinel]
  constructor
  · rintro ⟨⟨hd, hcat⟩, hpay⟩
    exact ⟨hd, fun hne => hcat.resolve_left hne, fun hne => hpay.resolve_left hne⟩
  · rintro ⟨hd, hcat, hpay⟩
    refine ⟨⟨hd, ?_⟩, ?_⟩
    · by_cases h : selected_category = "All"
      · exact Or.inl h
      · exact Or.inr (hcat h)
    · by_cases h : selected_payment = "All"
      · exact Or.inl h
      · exact Or.inr (hpay h)

/-- C4: the filter pipeline returns, in source order (a sublist of the
input), exactly the rows satisfying the conjunction of the active
predicates; a selector at the "All" sentinel imposes no predicate. -/
theorem c4_filter_pipeline_conjunction
    (df : List Row) (d0 d1 : Int) (selected_category selected_payment : String) :
    (filterPipeline df d0 d1 selected_category selected_payment).Sublist df ∧
    ∀ r, r ∈ filterPipeline df d0 d1 selected_category selected_payment ↔
      (r ∈ df ∧
       (∃ t, r.order_purchase_timestamp = some t ∧ d0 ≤ dateOfTs t ∧ dateOfTs t ≤ d1) ∧
       (selected_category ≠ allSentinel → r.product_category_name = selected_category) ∧
       (selected_payment ≠ allSentinel → r.payment_type = selected_payment)) := by
  refine ⟨List.filter_sublist df, fun r => ?_⟩
  rw [filterPipeline, List.mem_filter, rowMask_iff, datePasses_iff]

/-- Witness for C4 at a concrete table, date range and selectors. -/
theorem c4_witness :
    (filterPipeline baseDF 0 10 allSentinel allSentinel).Sublist baseDF ∧
    ∀ r, r ∈ filterPipeline baseDF 0 10 allSentinel allSentinel ↔
      (r ∈ baseDF ∧
       (∃ t, r.order_purchase_timestamp = some t ∧ 0 ≤ dateOfTs t ∧ dateOfTs t ≤ 10) ∧
       (allSentinel ≠ allSentinel → r.product_category_name = allSentinel) ∧
       (allSentinel ≠ allSentinel → r.payment_type = allSentinel)) :=
  c4_filter_pipeline_conjunction baseDF 0 10 allSentinel allSentinel

/-- C5: filtering by a category keeps only rows of that category, and the
kept and rejected rows together are a permutation of the input: every input
row lands in exactly one of the two (same multiset, no duplication, no
loss). -/
theorem c5_category_filter_partitions (df : List Row) (category : String) :
    (∀ r ∈ filterByCategory df category, r.product_category_name = category) ∧
    (filterByCategory df category ++ filterOutCategory df category).Perm df ∧
    ∀ r : Row,
      (filterByCategory df category).count r + (filterOutCategory df category).count r
        = df.count r := by
  refine ⟨?_, ?_, ?_⟩
  · intro r hr
    have h := (List.mem_filter.mp hr).2
    simpa using h
  · exact List.filter_append_perm _ df
  · intro r
    rw [← List.count_append]
    exact (List.filter_append_perm
      (fun r => r.product_category_name == category) df).count_eq r

/-- Witness for C5 at a concrete table and category. -/
theorem c5_witness :
    (∀ r ∈ filterByCategory baseDF baseRaw.product_category_name,
      r.product_category_name = baseRaw.product_category_name) ∧
    (filterByCategory baseDF baseRaw.product_category_name ++
      filterOutCategory baseDF baseRaw.product_category_name).Perm baseDF ∧
    ∀ r : Row,
      (filterByCategory baseDF baseRaw.product_category_name).count r +
        (filterOutCategory baseDF baseRaw.product_category_name).count r
        = baseDF.count r :=
  c5_category_filter_partitions baseDF baseRaw.product_category_name

/-- C7: on the empty filtered table every aggregation is defined and empty:
the group-by aggregations (daily series, demographics, category insights,
payment insights, RFM) return the empty table, and the overview metrics
degenerate to zero orders, zero revenue and missing means (pandas NaN). -/
theorem c7_empty_table_aggregations :
    calculate_rfm [] = [] ∧
    create_time_series [] = [] ∧
    demographics_by_state [] = [] ∧
    demographics_by_city [] = [] ∧
    create_product_insights [] = [] ∧
    payment_stats [] = [] ∧
    installment_stats [] = [] ∧
    create_overview_metrics [] =
      { total_orders := 0, total_revenue := 0,
        avg_order_value := none, avg_delivery_time := none } :=
  ⟨rfl, rfl, rfl, rfl, rfl, rfl, rfl, rfl⟩

/-- Helper: a sum of mapped values splits along a Boolean predicate on the
rows. -/
theorem sum_map_filter_split (p : Row → Bool) (df : List Row) (f : Row → ℚ) :
    ((df.filter p).map f).sum + ((df.filter (fun r => !p r)).map f).sum
      = (df.map f).sum := by
  rw [← List.sum_append, ← List.map_append]
  exact ((List.filter_append_perm p df).map f).sum_eq

/-- Helper: summing, over a duplicate-free list of keys covering every row's
customer id, the `total_value` sums of the per-key groups gives the
`total_value` sum of the whole table. -/
theorem groupby_sum_total (keys : List String) (df : List Row)
    (hnd : keys.Nodup) (hcov : ∀ r ∈ df, r.customer_unique_id ∈ keys) :
    (keys.map (fun c => ((customerGroup df c).map (fun r => r.total_value)).sum)).sum
      = (df.map (fun r => r.total_value)).sum := by
  induction keys generalizing df with
  | nil =>
      have hdf : df = [] := List.eq_nil_iff_forall_not_mem.mpr
        (fun r hr => List.not_mem_nil _ (hcov r hr))
      subst hdf
      rfl
  | cons c ks ih =>
      obtain ⟨hc, hknd⟩ := List.nodup_cons.mp hnd
      have hgroup_eq : ∀ k ∈ ks,
          customerGroup df k
            = customerGroup (df.filter (fun r => !(r.customer_unique_id == c))) k := by
        intro k hk
        have hkc : k ≠ c := fun h => hc (h ▸ hk)
        unfold customerGroup
        rw [List.filter_filter]
        apply List.filter_congr
        intro r _
        cases hrk : (r.customer_unique_id == k) with
        | false => simp [hrk]
        | true =>
            have hry : r.customer_unique_id = k := by simpa using hrk
            simp [hry, hkc]
      have hcov2 : ∀ r ∈ df.filter (fun r => !(r.customer_unique_id == c)),
          r.customer_unique_id ∈ ks := by
        intro r hr
        obtain ⟨hrdf, hrne⟩ := List.mem_filter.mp hr
        rcases List.mem_cons.mp (hcov r hrdf) with h | h
        · simp [h] at hrne
        · exact h
      have hmap : ks.map (fun k => ((customerGroup df k).map (fun r => r.total_value)).sum)
          = ks.map (fun k =>
              ((customerGroup (df.filter (fun r => !(r.customer_unique_id == c))) k).map
                (fun r => r.total_value)).sum) :=
        List.map_congr_left (fun k hk => by rw [hgroup_eq k hk])
      rw [List.map_cons, List.sum_cons, hmap,
        ih (df.filter (fun r => !(r.customer_unique_id == c))) hknd hcov2]
      exact sum_map_filter_split (fun r => r.customer_unique_id == c) df
        (fun r => r.total_value)

/-- A raw record with a negative price, as a CSV could contain. -/
def negRaw : RawRow := { baseRaw with price := -1, freight_value := 0 }

/-- The loaded row of `negRaw`: its `total_value` is `-1`. -/
def negRow : Row := deriveRow negRaw

/-- C6 counterexample: on the one-row table whose price is `-1` (so
`total_value = price + freight_value = -1`), `calculate_rfm` produces a
record with negative monetary value, refuting "every monetary value is
non-negative" for arbitrary input tables. -/
theorem c6_counterexample :
    negRow.total_value = negRow.price + negRow.freight_value ∧
    (calculate_rfm [negRow]).map (fun rec => rec.monetary) = [(-1 : ℚ)] ∧
    ¬ ∀ rec ∈ calculate_rfm [negRow], 0 ≤ rec.monetary := by
  have hmon : (calculate_rfm [negRow]).map (fun rec => rec.monetary) = [(-1 : ℚ)] := by
    simp [calculate_rfm, customerGroup, negRow, negRaw, baseRaw, deriveRow]
  refine ⟨rfl, hmon, fun hall => ?_⟩
  cases hl : calculate_rfm [negRow] with
  | nil => rw [hl] at hmon; exact absurd hmon (by simp)
  | cons rec rest =>
      have hrec := hall rec (by rw [hl]; exact List.mem_cons_self rec rest)
      rw [hl] at hmon
      simp only [List.map_cons, List.cons.injEq] at hmon
      rw [hmon.1] at hrec
      norm_num at hrec

/-- C6 as amended: every monetary value `calculate_rfm` produces is
non-negative provided every row's `total_value` is non-negative (as holds
when prices and freight values are non-negative), and unconditionally the
monetary values sum, across customers, to the `total_value` sum of all input
rows. -/
theorem c6_monetary_conservation (df : List Row) :
    ((∀ r ∈ df, 0 ≤ r.total_value) → ∀ rec ∈ calculate_rfm df, 0 ≤ rec.monetary) ∧
    ((calculate_rfm df).map (fun rec => rec.monetary)).sum
      = (df.map (fun r => r.total_value)).sum := by
  constructor
  · intro hpos rec hrec
    obtain ⟨c, _, rfl⟩ := List.mem_map.mp hrec
    apply List.sum_nonneg
    intro x hx
    obtain ⟨r, hr, rfl⟩ := List.mem_map.mp hx
    exact hpos r (List.mem_filter.mp hr).1
  · have hproj : (calculate_rfm df).map (fun rec => rec.monetary)
        = ((df.map (fun r => r.customer_unique_id)).dedup).map
            (fun c => ((customerGroup df c).map (fun r => r.total_value)).sum) := by
      unfold calculate_rfm
      rw [List.map_map]
      rfl
    rw [hproj]
    exact groupby_sum_total ((df.map (fun r => r.customer_unique_id)).dedup) df
      (List.nodup_dedup _)
      (fun r hr => List.mem_dedup.mpr (List.mem_map_of_mem _ hr))

/-- Witness for C6 as amended, at the concrete base table. -/
theorem c6_witness :
    (∀ r ∈ baseDF, 0 ≤ r.total_value) ∧
    ((∀ r ∈ baseDF, 0 ≤ r.total_value) →
      ∀ rec ∈ calculate_rfm baseDF, 0 ≤ rec.monetary) ∧
    ((calculate_rfm baseDF).map (fun rec => rec.monetary)).sum
      = (baseDF.map (fun r => r.total_value)).sum := by
  have h := c6_monetary_conservation baseDF
  have hpos : ∀ r ∈ baseDF, 0 ≤ r.total_value := by
    intro r hr
    rcases List.mem_singleton.mp hr with rfl
    show (0 : ℚ) ≤ baseRaw.price + baseRaw.freight_value
    norm_num [baseRaw]
  exact ⟨hpos, h.1, h.2⟩

/-- First row of the spec's RFM example: total value 10 (price 10, freight
0), purchased at time 0. -/
def rfmRaw1 : RawRow := { baseRaw with price := 10, freight_value := 0 }

/-- Second row of the spec's RFM example: a second order of the same
customer, total value 20, purchased 5 days (432000 s) later. -/
def rfmRaw2 : RawRow :=
  { baseRaw with
    order_id := "o2"
    price := 20
    freight_value := 0
    order_purchase_raw := .date 432000 }

/-- The spec's RFM example table: two orders of one customer, total values 10
and 20, purchased 5 days apart. -/
def rfmExampleDf : List Row := [deriveRow rfmRaw1, deriveRow rfmRaw2]

/-- The RFM record of the example customer: the later purchase is the
dataset's latest, so recency is 0 days; frequency 2; monetary 30. -/
def rfmExampleRecord : RFMRecord :=
  { customer_unique_id := baseRaw.customer_unique_id
    recency := some 0
    frequency := 2
    monetary := 30 }

/-- A second purchase line of the SAME order `o1` (same customer): the code
counts it as a second unit of frequency even though it is not a distinct
order. -/
def dupRaw2 : RawRow := { baseRaw with price := 20, freight_value := 0 }

/-- A table with two purchase-line rows of one customer sharing one
`order_id`. -/
def dupDf : List Row := [deriveRow rfmRaw1, deriveRow dupRaw2]

/-- C2 counterexample: on a table where one customer's two purchase-line rows
share a single `order_id`, `calculate_rfm` reports frequency 2 while the
customer has exactly 1 distinct order, refuting "frequency = count of that
customer's orders" (an order being identified by `order_id`, as in the
dataset's Total Orders metric). -/
theorem c2_counterexample :
    (calculate_rfm dupDf).map (fun rec => rec.frequency) = [2] ∧
    spec_order_count dupDf baseRaw.customer_unique_id = 1 ∧
    ¬ ∀ rec ∈ calculate_rfm dupDf,
        rec.frequency = spec_order_count dupDf rec.customer_unique_id := by
  have hfreq : (calculate_rfm dupDf).map (fun rec => rec.frequency) = [2] := by decide
  have hcid : (calculate_rfm dupDf).map (fun rec => rec.customer_unique_id)
      = [baseRaw.customer_unique_id] := by decide
  refine ⟨hfreq, by decide, fun hall => ?_⟩
  cases hl : calculate_rfm dupDf with
  | nil => rw [hl] at hfreq; exact absurd hfreq (by simp)
  | cons rec rest =>
      have hrec := hall rec (by rw [hl]; exact List.mem_cons_self rec rest)
      rw [hl] at hfreq hcid
      simp only [List.map_cons, List.cons.injEq] at hfreq hcid
      rw [hfreq.1, hcid.1] at hrec
      exact absurd hrec (by decide)

/-- C2 as amended: for every customer present in the table, `calculate_rfm`
produces exactly one record, whose recency is the floored day difference
between the dataset's latest purchase and the customer's latest purchase,
whose frequency is the number of the customer's purchase-line rows (the
`order_id` count, duplicate order ids counted once per row), and whose
monetary value is the sum of the customer's `total_value`; in particular the
spec's example table (two orders, totals 10 and 20, purchased 5 days apart)
yields the single record with recency 0 days (the later purchase is the
dataset's latest), frequency 2 and monetary 30. -/
theorem c2_rfm_per_customer (df : List Row) (c : String)
    (hc : c ∈ df.map (fun r => r.customer_unique_id)) :
    ((calculate_rfm df).countP (fun rec => rec.customer_unique_id == c) = 1 ∧
     ∃ rec ∈ calculate_rfm df,
       rec.customer_unique_id = c ∧
       rec.recency =
         (match seriesMax (df.filterMap (fun r => r.order_purchase_timestamp)),
             seriesMax ((customerGroup df c).filterMap
               (fun r => r.order_purchase_timestamp)) with
          | some m, some x => some (timedeltaDays (m - x))
          | _, _ => none) ∧
       rec.frequency = (customerGroup df c).length ∧
       rec.monetary = ((customerGroup df c).map (fun r => r.total_value)).sum) ∧
    calculate_rfm rfmExampleDf = [rfmExampleRecord] := by
  have hmem : c ∈ (df.map (fun r => r.customer_unique_id)).dedup :=
    List.mem_dedup.mpr hc
  refine ⟨⟨?_, ?_⟩, ?_⟩
  · unfold calculate_rfm
    rw [List.countP_map]
    show ((df.map (fun r => r.customer_unique_id)).dedup).countP (fun k => k == c) = 1
    rw [← List.count_eq_countP]
    exact List.count_eq_one_of_mem (List.nodup_dedup _) hmem
  · exact ⟨_, List.mem_map_of_mem _ hmem, rfl, rfl, rfl, rfl⟩
  · simp [calculate_rfm, customerGroup, rfmExampleDf, rfmRaw1, rfmRaw2, baseRaw,
      deriveRow, seriesMax, timedeltaDays, secondsPerDay, parseDate, rfmExampleRecord]
    norm_num

/-- Witness for C2 as amended, at the spec's example table and customer. -/
theorem c2_witness :
    ((calculate_rfm rfmExampleDf).countP
        (fun rec => rec.customer_unique_id == baseRaw.customer_unique_id) = 1 ∧
     ∃ rec ∈ calculate_rfm rfmExampleDf,
       rec.customer_unique_id = baseRaw.customer_unique_id ∧
       rec.recency =
         (match seriesMax (rfmExampleDf.filterMap (fun r => r.order_purchase_timestamp)),
             seriesMax ((customerGroup rfmExampleDf baseRaw.customer_unique_id).filterMap
               (fun r => r.order_purchase_timestamp)) with
          | some m, some x => some (timedeltaDays (m - x))
          | _, _ => none) ∧
       rec.frequency = (customerGroup rfmExampleDf baseRaw.customer_unique_id).length ∧
       rec.monetary = ((customerGroup rfmExampleDf baseRaw.customer_unique_id).map
         (fun r => r.total_value)).sum) ∧
    calculate_rfm rfmExampleDf = [rfmExampleRecord] :=
  c2_rfm_per_customer rfmExampleDf baseRaw.customer_unique_id (by decide)

end Dashboard
